import Mathlib

/-!
Verification of the `docling-wrapper.py` CLI adapter
(`src/services/nexus-graphrag/scripts/docling-wrapper.py`).

The script shells out to an external document converter and flattens the
returned object into a fixed JSON schema.  We embed the flattening logic
(`DoclingProcessor.process_document`) and the CLI driver (`main`) as pure
Lean functions over an explicit model of the external converter's result
object.  JSON values are modelled by the inductive `JValue`; Python dicts
become association lists that record key insertion order (Python 3.7+ dicts
preserve insertion order, and `json.dumps` serialises keys in that order).
-/

namespace Docling

/-- JSON values as produced by the wrapper (`json.dumps` of the result dict).
Numbers are modelled as rationals (covers ints, `st_size`, and the float
literal `0.979`). Objects are ordered association lists, matching Python
dict insertion order. -/
inductive JValue where
  | null
  | bool (b : Bool)
  | num (q : ℚ)
  | str (s : String)
  | arr (elems : List JValue)
  | obj (fields : List (String × JValue))

/-- Top-level result dict (before `json.dumps`). -/
abbrev Dict := List (String × JValue)

/-- Key lookup in an ordered dict, as Python `d[k]` / `d.get(k)`. -/
def jLookup (d : Dict) (k : String) : Option JValue :=
  List.lookup k d

/-- Character-list prefix test (structural, so that it reduces). -/
def charsPrefix : List Char → List Char → Bool
  | [], _ => true
  | _ :: _, [] => false
  | a :: as, b :: bs => a == b && charsPrefix as bs

/-- Character-list infix test (structural, so that it reduces). -/
def charsInfix (pat : List Char) : List Char → Bool
  | [] => pat.isEmpty
  | c :: rest => charsPrefix pat (c :: rest) || charsInfix pat rest

/-- Python `pat in s` on strings: substring containment. -/
def strContains (s pat : String) : Bool :=
  charsInfix pat.toList s.toList

/-- Python `s.lower()` (agrees with CPython on the ASCII range used by the
classification patterns). -/
def pyLower (s : String) : String :=
  String.mk (s.toList.map Char.toLower)

/-- Output formats accepted by `--output-format` (argparse `choices`,
lines 249-251). -/
inductive OutputFormat where
  | text
  | markdown
  | json

/-- The string value each format carries (what `args.output_format` holds). -/
def fmtStr : OutputFormat → String
  | .text => "text"
  | .markdown => "markdown"
  | .json => "json"

/-- The options dict built in `main` (lines 272-278).  All five keys are
always present there, so the dict is modelled as a total structure; the
`options.get(key, default)` calls inside `process_document` therefore never
fall back to their defaults on the CLI path. -/
structure Options where
  output_format : OutputFormat
  preserve_layout : Bool
  extract_tables : Bool
  extract_figures : Bool
  extract_equations : Bool

/-- Pipeline options handed to the external converter.  The defaults of the
external `PipelineOptions()` constructor are unknown, so the initial record
is a parameter of `initConverter`. -/
structure PipelineOptions where
  table_extraction : Bool
  table_structure_recognition : Bool
  figure_extraction : Bool
  equation_extraction : Bool
  layout_preservation : Bool

/-- Model of `DoclingProcessor.initialize_converter` (lines 59-81): flag-driven
in-place updates of the freshly constructed pipeline options, in source
order (tables, figures, equations, layout). -/
def initConverter (init : PipelineOptions) (opts : Options) : PipelineOptions :=
  let p := init
  let p := if opts.extract_tables then
             { p with table_extraction := true, table_structure_recognition := true }
           else p
  let p := if opts.extract_figures then { p with figure_extraction := true } else p
  let p := if opts.extract_equations then { p with equation_extraction := true } else p
  if opts.preserve_layout then { p with layout_preservation := true } else p

/-- Model of `result.metadata` when that attribute exists: a mapping read with
`.get('title', '')`, `.get('author', '')`, `.get('page_count', 0)`
(lines 123-125); each entry independently present or absent. -/
structure MetaMap where
  title : Option String
  author : Option String
  page_count : Option Int

/-- One entry of `result.tables`; the `hasattr`-guarded fields are `Option`s.
Header/row cells and captions reach the output only through `str(...)`, so
they are modelled as the resulting strings. -/
structure TableObj where
  header : Option (List String)
  rows : Option (List (List String))
  caption : Option String

/-- Outcome of the image-encoding block for one figure (lines 167-179): the
payload is not a PIL image (the `isinstance` test fails, or the local
imports raise), or it is a PIL image whose PNG+base64 encoding raises
(`pil none` — the exception is swallowed with a warning), or one that
encodes to the given base64 string. -/
inductive ImageAttr where
  | notPil
  | pil (encoded : Option String)

/-- One entry of `result.figures` (lines 155-181). -/
structure FigureObj where
  caption : Option String
  image : Option ImageAttr

/-- Model of the `element.bbox` fields (lines 222-227), copied through verbatim. -/
structure BBox where
  x : ℚ
  y : ℚ
  width : ℚ
  height : ℚ

/-- One entry of `result.layout` (lines 185-233).  `type` is `str(element.type)`
before `.lower()`; `level` is the value `int(element.level)` when the
attribute exists. -/
structure LayoutElem where
  type : Option String
  level : Option Int
  text : Option String
  content : Option String
  bbox : Option BBox
  page : Option Int

/-- A converter result that passes `isinstance(result, Document)`.  The two
renderer calls may raise (the exception propagates to the outer handler),
hence `Except`; the four structured attributes are independently optional. -/
structure Document where
  to_markdown : Except String String
  to_text : Except String String
  metadata : Option MetaMap
  tables : Option (List TableObj)
  figures : Option (List FigureObj)
  layout : Option (List LayoutElem)

/-- What `self.converter.convert(str(input_path))` returned when it did not
raise: a `Document` or anything else. -/
inductive ConvResult where
  | nonDocument
  | document (d : Document)

/-- Filesystem facts about the input path used by the flattener:
`input_path.name` and `input_path.stat().st_size` (lines 100-101). -/
structure FileInfo where
  name : String
  size : ℕ

/-- Lines 99-103 and 121-126: the `metadata` sub-dict.  Filesystem fields
first; when `result` has a `metadata` attribute, `dict.update` overwrites
`pages` in place and appends the new keys `title`, `author` in the order
they appear in the literal — so the key order is
filename, file_size, pages, title, author. -/
def metadataDict (fi : FileInfo) : Option MetaMap → JValue
  | none => .obj [("filename", .str fi.name),
                  ("file_size", .num fi.size),
                  ("pages", .num 0)]
  | some m => .obj [("filename", .str fi.name),
                    ("file_size", .num fi.size),
                    ("pages", .num (m.page_count.getD 0 : Int)),
                    ("title", .str (m.title.getD "")),
                    ("author", .str (m.author.getD ""))]

/-- Lines 130-151: one table entry.  `confidence` is the fixed TableFormer
baseline literal `0.979`. -/
def flattenTable (t : TableObj) : JValue :=
  .obj [("headers", .arr ((t.header.getD []).map .str)),
        ("rows", .arr ((t.rows.getD []).map (fun r => .arr (r.map .str)))),
        ("caption", .str (t.caption.getD "")),
        ("confidence", .num ((979 : ℚ)/1000))]

/-- Lines 155-181: one figure entry.  `figure_data` initialises `base64` to
`None`; the key is always present and is overwritten only when the payload
is a PIL image whose encoding succeeds. -/
def flattenFigure (f : FigureObj) : JValue :=
  .obj [("caption", .str (f.caption.getD "")),
        ("type", .str "figure"),
        ("base64", match f.image with
                   | some (.pil (some s)) => .str s
                   | _ => .null)]

/-- Lines 193-212: the classification `elif` chain.  `layout_element` starts
as `('paragraph', level None)`; when the element has a `type` attribute the
lowered string is matched by substring in precedence order
header/heading → table → figure/image → list → code → footer → caption,
and `level` is assigned only inside the header branch (when present). -/
def classifyElem (tOpt : Option String) (lvl : Option Int) : String × Option Int :=
  match tOpt with
  | none => ("paragraph", none)
  | some t =>
    let et := pyLower t
    if strContains et "header" || strContains et "heading" then ("header", lvl)
    else if strContains et "table" then ("table", none)
    else if strContains et "figure" || strContains et "image" then ("figure", none)
    else if strContains et "list" then ("list", none)
    else if strContains et "code" then ("code", none)
    else if strContains et "footer" then ("footer", none)
    else if strContains et "caption" then ("caption", none)
    else ("paragraph", none)

/-- Lines 185-233: one layout element.  The type tag and level come from
`classifyElem`; `text` shadows `content`; bbox then page are added to the
nested `metadata` dict. -/
def flattenElement (e : LayoutElem) : JValue :=
  let tl : String × Option Int := classifyElem e.type e.level
  let contentStr : String :=
    match e.text with
    | some t => t
    | none => e.content.getD ""
  let metaFields : List (String × JValue) :=
    (match e.bbox with
     | some b => [("bbox", .obj [("x", .num b.x), ("y", .num b.y),
                                 ("width", .num b.width), ("height", .num b.height)])]
     | none => []) ++
    (match e.page with
     | some p => [("page", .num (p : Int))]
     | none => [])
  .obj [("type", .str tl.1),
        ("content", .str contentStr),
        ("level", match tl.2 with | some l => .num (l : Int) | none => .null),
        ("metadata", .obj metaFields)]

/-- Lines 96-108: the success skeleton built before the `isinstance` check.
It is also the entire output when the result is not a `Document`
(line 235 returns it unchanged). -/
def skeleton (opts : Options) (fi : FileInfo) : Dict :=
  [("success", .bool true),
   ("format", .str (fmtStr opts.output_format)),
   ("metadata", metadataDict fi none),
   ("content", .str ""),
   ("tables", .arr []),
   ("figures", .arr []),
   ("layout", .arr [])]

/-- Lines 113-118: renderer selection.  `markdown` uses `to_markdown()`,
`text` uses `to_text()`, and the `else` branch (format `json`) also uses
`to_text()`. -/
def renderContent (opts : Options) (d : Document) : Except String String :=
  match opts.output_format with
  | .markdown => d.to_markdown
  | .text => d.to_text
  | .json => d.to_text

/-- Lines 111-235: update the skeleton for a `Document` result.  The renderer
selected by `output_format` runs first (lines 113-118) and may raise, in
which case nothing of the partially updated dict survives (the exception
propagates to the outer handler); all later steps only probe attributes.
Each structured list is filled only when its flag is set AND the attribute
exists (`if options.get(...) and hasattr(result, ...)`, lines 129/154/184).
The five structured keys are updated in place, keeping the skeleton's key
order. -/
def flattenDocument (opts : Options) (fi : FileInfo) (d : Document) :
    Except String Dict :=
  match renderContent opts d with
  | .error e => .error e
  | .ok contentStr =>
    .ok [("success", .bool true),
         ("format", .str (fmtStr opts.output_format)),
         ("metadata", metadataDict fi d.metadata),
         ("content", .str contentStr),
         ("tables", .arr (if opts.extract_tables then
                            match d.tables with
                            | some ts => ts.map flattenTable
                            | none => []
                          else [])),
         ("figures", .arr (if opts.extract_figures then
                             match d.figures with
                             | some fs => fs.map flattenFigure
                             | none => []
                           else [])),
         ("layout", .arr (if opts.preserve_layout then
                            match d.layout with
                            | some ls => ls.map flattenElement
                            | none => []
                          else []))]

/-- The `except` branch (lines 237-243): the structured failure dict, whose
`error` value is `str(e)` of the caught exception. -/
def failDict (msg : String) (opts : Options) : Dict :=
  [("success", .bool false),
   ("error", .str msg),
   ("format", .str (fmtStr opts.output_format))]

/-- The body of the `try` block (lines 90-235): the conversion outcome, then
the flatten; any raise escapes as `.error`. -/
def tryBody (opts : Options) (fi : FileInfo) (conv : Except String ConvResult) :
    Except String Dict :=
  match conv with
  | .error e => .error e
  | .ok .nonDocument => .ok (skeleton opts fi)
  | .ok (.document d) => flattenDocument opts fi d

/-- Model of `DoclingProcessor.process_document` (lines 83-243).  The opaque call
`self.converter.convert(...)` is modelled by its outcome `conv` (a raised
exception's `str(e)`, or a result object); the single `try/except` turns
any raise during conversion or flattening into the failure dict. -/
def process_document (opts : Options) (fi : FileInfo)
    (conv : Except String ConvResult) : Dict :=
  match tryBody opts fi conv with
  | .ok out => out
  | .error e => failDict e opts

/-- Truthiness of `result.get('success', False)` (line 300): the stored value
when it is a bool, `False` when the key is missing. -/
def successBit (d : Dict) : Bool :=
  match jLookup d "success" with
  | some (.bool b) => b
  | _ => false

/-- Outcome of one process run: `sys.exit(1)` before any conversion (missing
input file, lines 266-269 — no JSON is written), or a completed run that
emitted `result` and returned an exit code. -/
inductive MainOutcome where
  | earlyExit (code : ℕ)
  | finished (result : Dict) (code : ℕ)

/-- Model of `main` (lines 245-300) after argument parsing: the existence check, then
`process_document`, then exit code `0` iff `result.get('success', False)`
is truthy (line 300). -/
def mainRun (fileExists : Bool) (opts : Options) (fi : FileInfo)
    (conv : Except String ConvResult) : MainOutcome :=
  if fileExists then
    let result := process_document opts fi conv
    .finished result (if successBit result then 0 else 1)
  else
    .earlyExit 1

/-- Fields of a JSON object (empty for non-objects); used to inspect nested
sub-dicts such as `output['metadata']` or one figure record. -/
def objFields : JValue → Dict
  | .obj fs => fs
  | _ => []

/-- The metadata map the flattener overlays: the `metadata` attribute of the
converter's result when that result is a `Document` exposing one, and
nothing otherwise. -/
def docMeta : Except String ConvResult → Option MetaMap
  | .ok (.document d) => d.metadata
  | _ => none

/-- Exit code of a run outcome. -/
def outcomeCode : MainOutcome → ℕ
  | .earlyExit c => c
  | .finished _ c => c

/-- The emitted result dict of a run outcome, if any was produced. -/
def outcomeDict : MainOutcome → Option Dict
  | .earlyExit _ => none
  | .finished d _ => some d

end Docling

namespace Docling

/-- Claim C10: a conversion call that returns without raising but whose
result is not a `Document` still yields `success: true` with the default
skeleton output — empty content, empty tables/figures/layout, and
filesystem-only metadata with `pages: 0` — for every flag combination. -/
theorem C10_non_document_skeleton (opts : Options) (fi : FileInfo) :
    process_document opts fi (.ok .nonDocument) =
      [("success", .bool true),
       ("format", .str (fmtStr opts.output_format)),
       ("metadata", .obj [("filename", .str fi.name),
                          ("file_size", .num fi.size),
                          ("pages", .num 0)]),
       ("content", .str ""),
       ("tables", .arr []),
       ("figures", .arr []),
       ("layout", .arr [])] := rfl

/-- Claim C1: every completed run's result dict holds exactly the keys
`success, format, metadata, content, tables, figures, layout` (in that
order) with `success = true`, or exactly `success, error, format` with
`success = false`; never a mix. -/
theorem C1_output_key_shape (opts : Options) (fi : FileInfo)
    (conv : Except String ConvResult) :
    (jLookup (process_document opts fi conv) "success" = some (.bool true) ∧
      (process_document opts fi conv).map Prod.fst =
        ["success", "format", "metadata", "content", "tables", "figures", "layout"]) ∨
    (jLookup (process_document opts fi conv) "success" = some (.bool false) ∧
      (process_document opts fi conv).map Prod.fst = ["success", "error", "format"]) := by
  cases conv with
  | error e =>
    right
    simp [process_document, tryBody, failDict, jLookup, List.lookup]
  | ok r =>
    cases r with
    | nonDocument =>
      left
      simp [process_document, tryBody, skeleton, metadataDict, jLookup, List.lookup]
    | document d =>
      cases hc : renderContent opts d with
      | error e =>
        right
        simp [process_document, tryBody, flattenDocument, hc, failDict, jLookup, List.lookup]
      | ok c =>
        left
        simp [process_document, tryBody, flattenDocument, hc, jLookup, List.lookup]

/-- Claim C2: in every successful CLI run, an unset `--extract-tables` flag
forces `tables == []`, an unset `--extract-figures` forces `figures == []`,
and an unset `--preserve-layout` forces `layout == []`, whatever the
converter result carries. -/
theorem C2_flags_gate_empty_lists (opts : Options) (fi : FileInfo)
    (conv : Except String ConvResult)
    (hs : jLookup (process_document opts fi conv) "success" = some (.bool true)) :
    (opts.extract_tables = false →
      jLookup (process_document opts fi conv) "tables" = some (.arr [])) ∧
    (opts.extract_figures = false →
      jLookup (process_document opts fi conv) "figures" = some (.arr [])) ∧
    (opts.preserve_layout = false →
      jLookup (process_document opts fi conv) "layout" = some (.arr [])) := by
  cases conv with
  | error e =>
    simp [process_document, tryBody, failDict, jLookup, List.lookup] at hs
  | ok r =>
    cases r with
    | nonDocument =>
      refine ⟨fun _ => ?_, fun _ => ?_, fun _ => ?_⟩ <;>
        simp [process_document, tryBody, skeleton, jLookup, List.lookup]
    | document d =>
      cases hc : renderContent opts d with
      | error e =>
        simp [process_document, tryBody, flattenDocument, hc, failDict,
          jLookup, List.lookup] at hs
      | ok c =>
        refine ⟨fun h => ?_, fun h => ?_, fun h => ?_⟩ <;>
          simp [process_document, tryBody, flattenDocument, hc, h,
            jLookup, List.lookup]

/-- Witness for C2 at a concrete run: all three flags unset, successful
skeleton output, and all three lists empty. -/
theorem C2_flags_gate_empty_lists_witness :
    jLookup (process_document ⟨.json, false, false, false, false⟩ ⟨"a.pdf", 3⟩
      (.ok .nonDocument)) "tables" = some (.arr []) ∧
    jLookup (process_document ⟨.json, false, false, false, false⟩ ⟨"a.pdf", 3⟩
      (.ok .nonDocument)) "figures" = some (.arr []) ∧
    jLookup (process_document ⟨.json, false, false, false, false⟩ ⟨"a.pdf", 3⟩
      (.ok .nonDocument)) "layout" = some (.arr []) := by
  have h := C2_flags_gate_empty_lists ⟨.json, false, false, false, false⟩
    ⟨"a.pdf", 3⟩ (.ok .nonDocument) rfl
  exact ⟨h.1 rfl, h.2.1 rfl, h.2.2 rfl⟩

/-- Claim C7: for a `Document` result, `content` is the `to_markdown()`
rendering when the requested format is `markdown` and the `to_text()`
rendering when it is `text` or `json`. -/
theorem C7_content_rendering (opts : Options) (fi : FileInfo) (d : Document)
    (md txt : String) (hm : d.to_markdown = .ok md) (ht : d.to_text = .ok txt) :
    jLookup (process_document opts fi (.ok (.document d))) "content" =
      some (.str (match opts.output_format with
                  | .markdown => md
                  | .text => txt
                  | .json => txt)) := by
  cases hf : opts.output_format <;>
    simp [process_document, tryBody, flattenDocument, renderContent, hf, hm, ht,
      jLookup, List.lookup]

/-- Witness for C7 at concrete runs: `markdown` format picks the markdown
rendering, `json` format picks the text rendering. -/
theorem C7_content_rendering_witness :
    jLookup (process_document ⟨.markdown, false, false, false, false⟩ ⟨"a.pdf", 3⟩
      (.ok (.document ⟨.ok "MD", .ok "TXT", none, none, none, none⟩))) "content" =
      some (.str "MD") ∧
    jLookup (process_document ⟨.json, false, false, false, false⟩ ⟨"a.pdf", 3⟩
      (.ok (.document ⟨.ok "MD", .ok "TXT", none, none, none, none⟩))) "content" =
      some (.str "TXT") :=
  ⟨C7_content_rendering ⟨.markdown, false, false, false, false⟩ ⟨"a.pdf", 3⟩
      ⟨.ok "MD", .ok "TXT", none, none, none, none⟩ "MD" "TXT" rfl rfl,
   C7_content_rendering ⟨.json, false, false, false, false⟩ ⟨"a.pdf", 3⟩
      ⟨.ok "MD", .ok "TXT", none, none, none, none⟩ "MD" "TXT" rfl rfl⟩

/-- The truthiness test of `result.get('success', False)` holds exactly when
the dict stores the JSON value `true` under `success`. -/
theorem successBit_eq_true_iff (d : Dict) :
    successBit d = true ↔ jLookup d "success" = some (.bool true) := by
  unfold successBit
  cases h : jLookup d "success" with
  | none => simp
  | some v => cases v <;> simp

/-- Claim C8: the process exit code is `0` iff the produced result has
`success = true` and `1` otherwise; a missing input file exits `1` before
any conversion with no JSON emitted. -/
theorem C8_exit_codes (opts : Options) (fi : FileInfo)
    (conv : Except String ConvResult) :
    (mainRun false opts fi conv = .earlyExit 1 ∧
      outcomeDict (mainRun false opts fi conv) = none) ∧
    outcomeDict (mainRun true opts fi conv) = some (process_document opts fi conv) ∧
    (outcomeCode (mainRun true opts fi conv) = 0 ↔
      jLookup (process_document opts fi conv) "success" = some (.bool true)) ∧
    (outcomeCode (mainRun true opts fi conv) = 1 ↔
      ¬ jLookup (process_document opts fi conv) "success" = some (.bool true)) := by
  refine ⟨⟨rfl, rfl⟩, rfl, ?_, ?_⟩ <;> rw [← successBit_eq_true_iff] <;>
    by_cases hb : successBit (process_document opts fi conv) = true <;>
      simp [mainRun, outcomeCode, hb]

/-- Claim C9: for a fixed converter result, the `extract_equations` option
never changes the flattened output; the flag only reaches the external
pipeline options, where it is forwarded into `equation_extraction`. -/
theorem C9_equations_flag_no_output_effect (opts : Options) (fi : FileInfo)
    (conv : Except String ConvResult) (b : Bool) (init : PipelineOptions) :
    process_document { opts with extract_equations := b } fi conv =
      process_document opts fi conv ∧
    (initConverter init { opts with extract_equations := b }).equation_extraction =
      (b || init.equation_extraction) := by
  obtain ⟨f, pl, et, ef, ee⟩ := opts
  constructor
  · cases conv with
    | error e => rfl
    | ok r => cases r with
      | nonDocument => rfl
      | document d => rfl
  · cases et <;> cases ef <;> cases b <;> cases pl <;> rfl

/-- The classification chain either takes the header branch (keeping the
element's level) or produces a level-free tag. -/
theorem classifyElem_header_or_no_level (tOpt : Option String) (lvl : Option Int) :
    classifyElem tOpt lvl = ("header", lvl) ∨ (classifyElem tOpt lvl).2 = none := by
  cases tOpt with
  | none => right; rfl
  | some t =>
    simp only [classifyElem]
    split_ifs <;> simp

/-- Claim C3: layout classification is a deterministic, order-preserving map
over the result's layout elements; the precedence chain sends the reported
types Heading-1, Table, Image, ListItem, CodeBlock, Footer, Caption,
Paragraph to header, table, figure, list, code, footer, caption, paragraph
in that order; and a heading level is attached only to header-classified
elements that expose one. -/
theorem C3_layout_classification :
    (∀ (opts : Options) (fi : FileInfo) (d : Document) (ls : List LayoutElem)
        (c : String),
      opts.preserve_layout = true → d.layout = some ls →
      renderContent opts d = .ok c →
      jLookup (process_document opts fi (.ok (.document d))) "layout" =
        some (.arr (ls.map flattenElement))) ∧
    (([⟨some "Heading-1", some 1, none, none, none, none⟩,
       ⟨some "Table", none, none, none, none, none⟩,
       ⟨some "Image", none, none, none, none, none⟩,
       ⟨some "ListItem", none, none, none, none, none⟩,
       ⟨some "CodeBlock", none, none, none, none, none⟩,
       ⟨some "Footer", none, none, none, none, none⟩,
       ⟨some "Caption", none, none, none, none, none⟩,
       ⟨some "Paragraph", none, none, none, none, none⟩] : List LayoutElem).map
        (fun e => jLookup (objFields (flattenElement e)) "type") =
      [some (.str "header"), some (.str "table"), some (.str "figure"),
       some (.str "list"), some (.str "code"), some (.str "footer"),
       some (.str "caption"), some (.str "paragraph")]) ∧
    (∀ e : LayoutElem,
      jLookup (objFields (flattenElement e)) "level" = some .null ∨
      (jLookup (objFields (flattenElement e)) "type" = some (.str "header") ∧
        ∃ l : Int, e.level = some l ∧
          jLookup (objFields (flattenElement e)) "level" = some (.num (l : ℚ)))) := by
  refine ⟨?_, rfl, ?_⟩
  · intro opts fi d ls c hpl hl hc
    simp [process_document, tryBody, flattenDocument, hc, hpl, hl,
      jLookup, List.lookup]
  · intro e
    rcases classifyElem_header_or_no_level e.type e.level with h | h
    · cases hl : e.level with
      | none =>
        left
        rw [hl] at h
        simp [flattenElement, objFields, jLookup, List.lookup, hl, h]
      | some l =>
        right
        rw [hl] at h
        refine ⟨?_, l, rfl, ?_⟩ <;>
          simp [flattenElement, objFields, jLookup, List.lookup, hl, h]
    · left
      simp [flattenElement, objFields, jLookup, List.lookup, h]

/-- Witness for C3 at a concrete run: with `--preserve-layout` set and one
layout element reported as Table, the emitted layout is the image of the
element list under the classification map. -/
theorem C3_layout_classification_witness :
    jLookup (process_document ⟨.json, true, false, false, false⟩ ⟨"a.pdf", 3⟩
        (.ok (.document ⟨.ok "MD", .ok "TXT", none, none, none,
          some [⟨some "Table", none, some "t", none, none, none⟩]⟩))) "layout" =
      some (.arr (([⟨some "Table", none, some "t", none, none, none⟩] :
        List LayoutElem).map flattenElement)) :=
  C3_layout_classification.1 ⟨.json, true, false, false, false⟩ ⟨"a.pdf", 3⟩
    ⟨.ok "MD", .ok "TXT", none, none, none,
      some [⟨some "Table", none, some "t", none, none, none⟩]⟩
    [⟨some "Table", none, some "t", none, none, none⟩] "TXT" rfl rfl rfl

/-- Counterexample to C4 as stated: `error` is `str(e)` of the caught
exception, and an exception whose message stringifies to the empty string
yields `success: false` with an EMPTY `error` string, not a non-empty
one. -/
theorem C4_counterexample_empty_error :
    process_document ⟨.json, false, false, false, false⟩ ⟨"a.pdf", 3⟩ (.error "") =
      [("success", .bool false), ("error", .str ""), ("format", .str "json")] ∧
    ("" : String).length = 0 := ⟨rfl, rfl⟩

/-- Claim C4 (amended): whenever conversion or any flattening step raises,
the result is exactly `{success: false, error: <str(e)>, format}` — the
error string equal to the exception's message, which may be empty — the
exit code is 1, and no partially built success output survives (the whole
dict is the three-key failure object). -/
theorem C4_amended_raise_yields_failure (opts : Options) (fi : FileInfo)
    (conv : Except String ConvResult) (msg : String)
    (h : tryBody opts fi conv = .error msg) :
    process_document opts fi conv =
      [("success", .bool false), ("error", .str msg),
       ("format", .str (fmtStr opts.output_format))] ∧
    (process_document opts fi conv).map Prod.fst = ["success", "error", "format"] ∧
    jLookup (process_document opts fi conv) "error" = some (.str msg) ∧
    mainRun true opts fi conv = .finished (process_document opts fi conv) 1 := by
  have hp : process_document opts fi conv = failDict msg opts := by
    simp [process_document, h]
  refine ⟨?_, ?_, ?_, ?_⟩ <;>
    simp [hp, failDict, jLookup, List.lookup, mainRun, successBit]

/-- Witness for amended C4 at a concrete run: the selected markdown renderer
raises mid-flatten while tables were requested and available; the output is
the whole failure object with exit code 1 — no partial `tables` key. -/
theorem C4_amended_raise_yields_failure_witness :
    process_document ⟨.markdown, true, true, true, false⟩ ⟨"a.pdf", 3⟩
        (.ok (.document ⟨.error "render failed", .ok "TXT", none,
          some [⟨some ["h"], some [["c"]], some "cap"⟩], none, none⟩)) =
      [("success", .bool false), ("error", .str "render failed"),
       ("format", .str "markdown")] ∧
    (process_document ⟨.markdown, true, true, true, false⟩ ⟨"a.pdf", 3⟩
        (.ok (.document ⟨.error "render failed", .ok "TXT", none,
          some [⟨some ["h"], some [["c"]], some "cap"⟩], none, none⟩))).map Prod.fst =
      ["success", "error", "format"] ∧
    jLookup (process_document ⟨.markdown, true, true, true, false⟩ ⟨"a.pdf", 3⟩
        (.ok (.document ⟨.error "render failed", .ok "TXT", none,
          some [⟨some ["h"], some [["c"]], some "cap"⟩], none, none⟩))) "error" =
      some (.str "render failed") ∧
    mainRun true ⟨.markdown, true, true, true, false⟩ ⟨"a.pdf", 3⟩
        (.ok (.document ⟨.error "render failed", .ok "TXT", none,
          some [⟨some ["h"], some [["c"]], some "cap"⟩], none, none⟩)) =
      .finished (process_document ⟨.markdown, true, true, true, false⟩ ⟨"a.pdf", 3⟩
        (.ok (.document ⟨.error "render failed", .ok "TXT", none,
          some [⟨some ["h"], some [["c"]], some "cap"⟩], none, none⟩))) 1 :=
  C4_amended_raise_yields_failure ⟨.markdown, true, true, true, false⟩ ⟨"a.pdf", 3⟩
    (.ok (.document ⟨.error "render failed", .ok "TXT", none,
      some [⟨some ["h"], some [["c"]], some "cap"⟩], none, none⟩)) "render failed" rfl

/-- Counterexample to C5 as stated: a successful run on a `Document` that
exposes no metadata map leaves `title` and `author` ABSENT from the output
metadata (only filename, file_size and the defaulted pages are present),
rather than present as empty strings. -/
theorem C5_counterexample_missing_title :
    jLookup (process_document ⟨.json, false, false, false, false⟩ ⟨"a.pdf", 7⟩
        (.ok (.document ⟨.ok "MD", .ok "TXT", none, none, none, none⟩))) "success" =
      some (.bool true) ∧
    jLookup (process_document ⟨.json, false, false, false, false⟩ ⟨"a.pdf", 7⟩
        (.ok (.document ⟨.ok "MD", .ok "TXT", none, none, none, none⟩))) "metadata" =
      some (.obj [("filename", .str "a.pdf"), ("file_size", .num 7),
                  ("pages", .num 0)]) ∧
    jLookup (objFields (.obj [("filename", .str "a.pdf"), ("file_size", .num 7),
        ("pages", .num 0)])) "title" = none ∧
    jLookup (objFields (.obj [("filename", .str "a.pdf"), ("file_size", .num 7),
        ("pages", .num 0)])) "author" = none :=
  ⟨rfl, rfl, rfl, rfl⟩

/-- Claim C5 (amended): every successful result's metadata carries filename
and file_size from the filesystem and a pages field defaulting to 0; the
title and author keys are present exactly when the result is a `Document`
exposing a metadata map, in which case missing entries default to the empty
string and the missing page count defaults to 0. -/
theorem C5_amended_metadata_shape (opts : Options) (fi : FileInfo)
    (conv : Except String ConvResult)
    (hs : jLookup (process_document opts fi conv) "success" = some (.bool true)) :
    jLookup (process_document opts fi conv) "metadata" =
      some (metadataDict fi (docMeta conv)) ∧
    jLookup (objFields (metadataDict fi (docMeta conv))) "filename" =
      some (.str fi.name) ∧
    jLookup (objFields (metadataDict fi (docMeta conv))) "file_size" =
      some (.num fi.size) ∧
    (docMeta conv = none →
      (objFields (metadataDict fi (docMeta conv))).map Prod.fst =
        ["filename", "file_size", "pages"] ∧
      jLookup (objFields (metadataDict fi (docMeta conv))) "pages" =
        some (.num 0)) ∧
    (∀ mm : MetaMap, docMeta conv = some mm →
      (objFields (metadataDict fi (docMeta conv))).map Prod.fst =
        ["filename", "file_size", "pages", "title", "author"] ∧
      jLookup (objFields (metadataDict fi (docMeta conv))) "pages" =
        some (.num (mm.page_count.getD 0 : Int)) ∧
      jLookup (objFields (metadataDict fi (docMeta conv))) "title" =
        some (.str (mm.title.getD "")) ∧
      jLookup (objFields (metadataDict fi (docMeta conv))) "author" =
        some (.str (mm.author.getD ""))) := by
  cases conv with
  | error e =>
    simp [process_document, tryBody, failDict, jLookup, List.lookup] at hs
  | ok r =>
    cases r with
    | nonDocument =>
      refine ⟨?_, ?_, ?_, fun _ => ⟨?_, ?_⟩, fun mm hmm => ?_⟩
      · simp [process_document, tryBody, skeleton, metadataDict, docMeta,
          jLookup, List.lookup]
      · simp [metadataDict, objFields, docMeta, jLookup, List.lookup]
      · simp [metadataDict, objFields, docMeta, jLookup, List.lookup]
      · simp [metadataDict, objFields, docMeta, jLookup, List.lookup]
      · simp [metadataDict, objFields, docMeta, jLookup, List.lookup]
      · simp [docMeta] at hmm
    | document d =>
      cases hc : renderContent opts d with
      | error e =>
        simp [process_document, tryBody, flattenDocument, hc, failDict,
          jLookup, List.lookup] at hs
      | ok c =>
        refine ⟨?_, ?_, ?_, fun hn => ?_, fun mm hmm => ?_⟩
        · simp [process_document, tryBody, flattenDocument, hc, docMeta,
            jLookup, List.lookup]
        · cases hm : d.metadata <;>
            simp [metadataDict, objFields, docMeta, hm, jLookup, List.lookup]
        · cases hm : d.metadata <;>
            simp [metadataDict, objFields, docMeta, hm, jLookup, List.lookup]
        · rw [docMeta] at hn ⊢
          refine ⟨?_, ?_⟩ <;>
            simp [metadataDict, objFields, hn, jLookup, List.lookup]
        · rw [docMeta] at hmm ⊢
          refine ⟨?_, ?_, ?_, ?_⟩ <;>
            simp [metadataDict, objFields, hmm, jLookup, List.lookup]

/-- Witness for amended C5 at a concrete run: a `Document` exposing a
metadata map with only a title; author defaults to the empty string and
page count to 0. -/
theorem C5_amended_metadata_shape_witness :
    jLookup (process_document ⟨.json, false, false, false, false⟩ ⟨"a.pdf", 7⟩
        (.ok (.document ⟨.ok "MD", .ok "TXT", some ⟨some "T", none, none⟩,
          none, none, none⟩))) "metadata" =
      some (metadataDict ⟨"a.pdf", 7⟩ (some ⟨some "T", none, none⟩)) ∧
    jLookup (objFields (metadataDict ⟨"a.pdf", 7⟩ (some ⟨some "T", none, none⟩)))
      "filename" = some (.str "a.pdf") ∧
    jLookup (objFields (metadataDict ⟨"a.pdf", 7⟩ (some ⟨some "T", none, none⟩)))
      "file_size" = some (.num 7) ∧
    (objFields (metadataDict ⟨"a.pdf", 7⟩ (some ⟨some "T", none, none⟩))).map
      Prod.fst = ["filename", "file_size", "pages", "title", "author"] ∧
    jLookup (objFields (metadataDict ⟨"a.pdf", 7⟩ (some ⟨some "T", none, none⟩)))
      "pages" = some (.num 0) ∧
    jLookup (objFields (metadataDict ⟨"a.pdf", 7⟩ (some ⟨some "T", none, none⟩)))
      "title" = some (.str "T") ∧
    jLookup (objFields (metadataDict ⟨"a.pdf", 7⟩ (some ⟨some "T", none, none⟩)))
      "author" = some (.str "") := by
  have h := C5_amended_metadata_shape ⟨.json, false, false, false, false⟩
    ⟨"a.pdf", 7⟩
    (.ok (.document ⟨.ok "MD", .ok "TXT", some ⟨some "T", none, none⟩,
      none, none, none⟩)) rfl
  have h5 := h.2.2.2.2 ⟨some "T", none, none⟩ rfl
  exact ⟨h.1, h.2.1, h.2.2.1, h5.1, h5.2.1, h5.2.2.1, h5.2.2.2⟩

/-- Counterexample to C6 as stated: when a figure's PIL image fails to
encode, the figure record still CONTAINS a `base64` key — set to JSON null
— rather than lacking the key; the run succeeds and keeps the caption. -/
theorem C6_counterexample_base64_key_present :
    jLookup (process_document ⟨.json, false, false, true, false⟩ ⟨"a.pdf", 3⟩
        (.ok (.document ⟨.ok "MD", .ok "TXT", none, none,
          some [⟨some "cap", some (.pil none)⟩], none⟩))) "figures" =
      some (.arr [.obj [("caption", .str "cap"), ("type", .str "figure"),
                        ("base64", .null)]]) ∧
    jLookup (process_document ⟨.json, false, false, true, false⟩ ⟨"a.pdf", 3⟩
        (.ok (.document ⟨.ok "MD", .ok "TXT", none, none,
          some [⟨some "cap", some (.pil none)⟩], none⟩))) "success" =
      some (.bool true) ∧
    (objFields (.obj [("caption", .str "cap"), ("type", .str "figure"),
        ("base64", .null)])).map Prod.fst = ["caption", "type", "base64"] :=
  ⟨rfl, rfl, rfl⟩

/-- Claim C6 (amended): under `--extract-figures`, an image-encoding failure
is swallowed: the run still reports `success: true`, each figure record is
appended with its caption, and the record's `base64` field is set to JSON
null — the key is always present — both when encoding fails and when no PIL
image payload exists; it holds a base64 string only on successful
encoding. -/
theorem C6_amended_encoding_failure_soft (opts : Options) (fi : FileInfo)
    (d : Document) (fs : List FigureObj) (c : String)
    (hf : d.figures = some fs) (hx : opts.extract_figures = true)
    (hc : renderContent opts d = .ok c) :
    jLookup (process_document opts fi (.ok (.document d))) "success" =
      some (.bool true) ∧
    jLookup (process_document opts fi (.ok (.document d))) "figures" =
      some (.arr (fs.map flattenFigure)) ∧
    ∀ f ∈ fs, (∀ s : String, f.image ≠ some (.pil (some s))) →
      flattenFigure f =
        .obj [("caption", .str (f.caption.getD "")), ("type", .str "figure"),
              ("base64", .null)] := by
  refine ⟨?_, ?_, ?_⟩
  · simp [process_document, tryBody, flattenDocument, hc, jLookup, List.lookup]
  · simp [process_document, tryBody, flattenDocument, hc, hx, hf,
      jLookup, List.lookup]
  · intro f _ hni
    cases him : f.image with
    | none => simp [flattenFigure, him]
    | some ia =>
      cases ia with
      | notPil => simp [flattenFigure, him]
      | pil enc =>
        cases enc with
        | none => simp [flattenFigure, him]
        | some s => exact absurd him (hni s)

/-- Witness for amended C6 at a concrete run: one figure whose PIL image
fails to encode; the run succeeds, the record is appended with its caption,
and `base64` is null. -/
theorem C6_amended_encoding_failure_soft_witness :
    jLookup (process_document ⟨.json, false, false, true, false⟩ ⟨"b.pdf", 9⟩
        (.ok (.document ⟨.ok "MD", .ok "TXT", none, none,
          some [⟨some "fig one", some (.pil none)⟩], none⟩))) "success" =
      some (.bool true) ∧
    jLookup (process_document ⟨.json, false, false, true, false⟩ ⟨"b.pdf", 9⟩
        (.ok (.document ⟨.ok "MD", .ok "TXT", none, none,
          some [⟨some "fig one", some (.pil none)⟩], none⟩))) "figures" =
      some (.arr (([⟨some "fig one", some (.pil none)⟩] :
        List FigureObj).map flattenFigure)) ∧
    flattenFigure ⟨some "fig one", some (.pil none)⟩ =
      .obj [("caption", .str "fig one"), ("type", .str "figure"),
            ("base64", .null)] := by
  have h := C6_amended_encoding_failure_soft ⟨.json, false, false, true, false⟩
    ⟨"b.pdf", 9⟩
    ⟨.ok "MD", .ok "TXT", none, none, some [⟨some "fig one", some (.pil none)⟩], none⟩
    [⟨some "fig one", some (.pil none)⟩] "TXT" rfl rfl rfl
  exact ⟨h.1, h.2.1,
    h.2.2 ⟨some "fig one", some (.pil none)⟩ (by simp) (by simp)⟩

end Docling
